import Mathlib

/-!
Verification development for the `cat-scaling` repository (package `scaling`).

The Python sources under `src/scaling` are shallowly embedded here:
Python floats are modelled as exact rationals (`ℚ`), Python dicts as
insertion-ordered association lists, raised exceptions as `Except` errors,
and NumPy vectors as `List ℚ` with element-wise arithmetic.
-/

namespace CatScaling

/-- Python exception kinds raised by the embedded code, with their messages
(`TypeError`, `ValueError`, `KeyError` from dict lookup, `RuntimeError`). -/
inductive PyErr where
  | typeError (msg : String) : PyErr
  | valueError (msg : String) : PyErr
  | keyError (key : String) : PyErr
  | runtimeError (msg : String) : PyErr
deriving Repr, DecidableEq

/-- Absolute value on `ℚ`, written as an executable conditional. -/
def ratAbs (a : ℚ) : ℚ := if a < 0 then -a else a

/-- Maximum on `ℚ`, written as an executable conditional. -/
def ratMax (a b : ℚ) : ℚ := if a ≤ b then b else a

/-- Embedding of Python `math.isclose(a, b, rel_tol=relTol, abs_tol=absTol)`:
true iff `|a - b| <= max(relTol * max(|a|, |b|), absTol)`. -/
def pyIsclose (a b relTol absTol : ℚ) : Bool :=
  ratAbs (a - b) ≤ ratMax (relTol * ratMax (ratAbs a) (ratAbs b)) absTol

/-- Python `math.isclose` default relative tolerance `1e-9`. -/
def relTolDefault : ℚ := 1 / 1000000000

/-- Sum of a list of rationals (Python `sum`). -/
def sumList (l : List ℚ) : ℚ := l.foldl (· + ·) 0

/-- Element-wise scaling of a NumPy-style vector: `r * v`. -/
def vecScale (r : ℚ) (v : List ℚ) : List ℚ := v.map (fun a => r * a)

/-- Element-wise addition of two equal-length NumPy-style vectors. -/
def vecAdd (a b : List ℚ) : List ℚ := List.zipWith (· + ·) a b

/-- Element-wise subtraction of two equal-length NumPy-style vectors. -/
def vecSub (a b : List ℚ) : List ℚ := List.zipWith (· - ·) a b

/-! ## Species (src/scaling/data/species.py) -/

/-- Embedding of `Species`: name, energy, adsorbed flag, correction and
physical state.  The `energy`/`correction` setters coerce to float, which
the `ℚ` model makes implicit; the `state` validity check is orthogonal to
the claims treated here. -/
structure Species where
  name : String
  energy : ℚ
  adsorbed : Bool
  correction : ℚ
  state : String
deriving Repr, DecidableEq

/-- Embedding of `Species.__eq__`: name, adsorbed and state compared
exactly; energy and correction each compared with
`math.isclose(..., abs_tol=1e-4)`. -/
def speciesEq (s o : Species) : Bool :=
  s.name == o.name
    && s.adsorbed == o.adsorbed
    && pyIsclose s.energy o.energy relTolDefault (1 / 10000)
    && pyIsclose s.correction o.correction relTolDefault (1 / 10000)
    && s.state == o.state

/-- Embedding of `Species.__hash__`: the hash is a function of the tuple
`(name, adsorbed, energy, state)` (correction is not hashed).  We model
the hash value by that tuple itself, so equal tuples hash equal and
distinct tuples are (collision-freely) distinct. -/
def speciesHash (s : Species) : String × Bool × ℚ × String :=
  (s.name, s.adsorbed, s.energy, s.state)

/-! ## ReactionStep and Reaction (src/scaling/data/reaction.py) -/

/-- Lookup in a Python dict keyed by `Species`: a key matches when
`Species.__eq__` holds (hash-bucket agreement is implied for structurally
built keys). -/
def pyDictLookup (d : List (Species × ℚ)) (k : Species) : Option ℚ :=
  (d.find? (fun p => speciesEq p.1 k)).map (fun p => p.2)

/-- Python dict equality for `dict[Species, float]`: same size, and every
key of the left dict is found in the right dict with an `==`-equal value. -/
def pyDictEqSF (d1 d2 : List (Species × ℚ)) : Bool :=
  d1.length == d2.length
    && d1.all (fun p => pyDictLookup d2 p.1 == some p.2)

/-- Embedding of `ReactionStep`: reactant and product dicts mapping
`Species` to stoichiometric numbers (the setters coerce values to float,
implicit in the `ℚ` model). -/
structure ReactionStep where
  reactants : List (Species × ℚ)
  products : List (Species × ℚ)
deriving Repr, DecidableEq

/-- Embedding of `ReactionStep.__eq__` (the reverse-step warning is a
side channel and not part of the returned value). -/
def stepEq (a b : ReactionStep) : Bool :=
  pyDictEqSF a.reactants b.reactants && pyDictEqSF a.products b.products

/-- Hash agreement for `ReactionStep.__hash__`, which hashes the pair of
`frozenset(items())`: two steps hash equal iff each side's items agree up
to permutation, with `Species` keys represented by their hash tuple. -/
def stepHashEq (a b : ReactionStep) : Bool :=
  (a.reactants.map (fun p => (speciesHash p.1, p.2))).isPerm
      (b.reactants.map (fun p => (speciesHash p.1, p.2)))
    && (a.products.map (fun p => (speciesHash p.1, p.2))).isPerm
      (b.products.map (fun p => (speciesHash p.1, p.2)))

/-- One insertion into a Python `set` of `ReactionStep`: the element is
absorbed iff an already-present element agrees in hash and `==`. -/
def pySetInsert (acc : List ReactionStep) (s : ReactionStep) : List ReactionStep :=
  if acc.any (fun t => stepHashEq t s && stepEq t s) then acc else acc ++ [s]

/-- Size of `set(steps)` for a list of `ReactionStep`. -/
def pySetSize (l : List ReactionStep) : Nat :=
  (l.foldl pySetInsert []).length

/-- Embedding of `Reaction`: the stored list of steps. -/
structure Reaction where
  steps : List ReactionStep
deriving Repr, DecidableEq

/-- Embedding of the `Reaction.reaction_steps` setter (run by `__init__`):
element types are enforced by the embedding's typing; duplicate detection
compares `len(reaction_steps)` with `len(set(reaction_steps))`. -/
def mkReaction (steps : List ReactionStep) : Except PyErr Reaction :=
  if pySetSize steps ≠ steps.length then
    Except.error (PyErr.valueError "Duplicate ReactionStep found.")
  else
    Except.ok ⟨steps⟩

/-- Embedding of `Reaction.__setitem__`: a bare list item assignment
`self.reaction_steps[index] = value` with no re-validation. -/
def reactionSetItem (r : Reaction) (index : Nat) (value : ReactionStep) : Reaction :=
  ⟨r.steps.set index value⟩

/-! ## EadsRelation (src/scaling/relation/relation.py) -/

/-- Dynamically typed Python values, as far as the `EadsRelation`
coefficient validation needs to distinguish them. -/
inductive PyObj where
  | pyStr (s : String) : PyObj
  | pyFloat (q : ℚ) : PyObj
  | pyInt (i : ℤ) : PyObj
  | pyBool (b : Bool) : PyObj
  | pyList (l : List PyObj) : PyObj
  | pyDict (kvs : List (PyObj × PyObj)) : PyObj

/-- Whether a `PyObj` is a Python dict (`isinstance(x, dict)`). -/
def PyObj.isDict : PyObj → Bool
  | PyObj.pyDict _ => true
  | _ => false

/-- Run an effectful function over a list, stopping at (raising) the
first error — the semantics of a Python `for` loop that may raise. -/
def exceptMapList (f : α → Except PyErr β) : List α → Except PyErr (List β)
  | [] => Except.ok []
  | a :: as => do
    let b ← f a
    let bs ← exceptMapList f as
    Except.ok (b :: bs)

/-- Extract a list of Python floats, failing on the first element for
which `isinstance(item, float)` is false (note: ints and bools are not
floats in Python). -/
def floatList : List PyObj → Option (List ℚ)
  | [] => some []
  | PyObj.pyFloat q :: rest => (floatList rest).map (fun l => q :: l)
  | _ :: _ => none

/-- One iteration of the `EadsRelation.coefficients` setter's type-check
loop: key must be a str, value a list, every element a float. -/
def checkCoefItem (kv : PyObj × PyObj) : Except PyErr (String × List ℚ) :=
  match kv with
  | (PyObj.pyStr k, PyObj.pyList vs) =>
    match floatList vs with
    | some qs => Except.ok (k, qs)
    | none => Except.error (PyErr.typeError "Coefficients must be floats")
  | (PyObj.pyStr _, _) => Except.error (PyErr.typeError "Input coefficients must be lists")
  | _ => Except.error (PyErr.typeError "Species name must be strings")

/-- Embedding of the `EadsRelation.coefficients` setter: type checks in
dict insertion order, then the length-consistency check
`len(set(lengths)) > 1`. -/
def setCoefficients : PyObj → Except PyErr (List (String × List ℚ))
  | PyObj.pyDict kvs => do
    let typed ← exceptMapList checkCoefItem kvs
    if ((typed.map (fun p => p.2.length)).dedup.length > 1) then
      Except.error (PyErr.valueError "All coefficients must have the same length")
    else
      Except.ok typed
  | _ => Except.error (PyErr.typeError "Coefficients must be a dictionary")

/-- Sum of the values of a `descriptor -> ratio` sub-dict. -/
def ratioSum (rd : List (String × ℚ)) : ℚ := sumList (rd.map (fun p => p.2))

/-- Embedding of the `EadsRelation.ratios` setter: the dict-type check is
carried by the embedding's typing; each sub-dict's values must sum to 1.0
under `math.isclose(..., abs_tol=0.01)` (first offender raises), and all
sub-dicts must have the same length (`len(dict_lengths) > 1` raises). -/
def setRatios (ratios : List (String × List (String × ℚ))) :
    Except PyErr (List (String × List (String × ℚ))) :=
  match ratios.find? (fun p => !(pyIsclose (ratioSum p.2) 1 relTolDefault (1 / 100))) with
  | some _ => Except.error (PyErr.valueError "Ratios for each species should sum to one.")
  | none =>
    if ((ratios.map (fun p => p.2.length)).dedup.length > 1) then
      Except.error (PyErr.valueError "Ratio dict must have the same length.")
    else
      Except.ok ratios

/-- The validated payload of an `EadsRelation` object. -/
structure EadsRelationData where
  coefficients : List (String × List ℚ)
  intercepts : List (String × ℚ)
  metrics : List (String × ℚ)
  ratios : List (String × List (String × ℚ))
deriving Repr, DecidableEq

/-- Embedding of `EadsRelation.__init__`: the four property setters run in
order (coefficients, intercepts, metrics, ratios).  The intercepts and
metrics setters only perform type checks and float coercion, which the
typed `ℚ` embedding renders trivially satisfied; their warning side
channel is not part of the stored value. -/
def mkEadsRelation (coefficients : PyObj) (intercepts : List (String × ℚ))
    (metrics : List (String × ℚ)) (ratios : List (String × List (String × ℚ))) :
    Except PyErr EadsRelationData := do
  let c ← setCoefficients coefficients
  let r ← setRatios ratios
  Except.ok ⟨c, intercepts, metrics, r⟩

/-- Embedding of `EadsRelation.dim`:
`len(next(iter(self.coefficients.values())))` (the length of the first
stored coefficient list; 0 stands in for the `StopIteration` of an empty
dict, which validated construction cannot produce from a nonempty one). -/
def relDim (r : EadsRelationData) : Nat :=
  match r.coefficients with
  | [] => 0
  | h :: _ => h.2.length

/-! ## Builder (src/scaling/relation/builder.py) -/

/-- Modelled from the spec: `Eads.get_adsorbate`, the tabular store's
column accessor (`get_column(name) -> vector<float>`, spec section 3; the
method is called by `Builder` but absent from `src/scaling/data/eads.py`).
The store is a named-column table; a missing name is a lookup error. -/
def getAdsorbate (data : List (String × List ℚ)) (name : String) :
    Except PyErr (List ℚ) :=
  match List.lookup name data with
  | some col => Except.ok col
  | none => Except.error (PyErr.keyError name)

/-- NumPy `np.sum(rows * ratios[:, np.newaxis], axis=0)` over the stacked
child-descriptor rows: the element-wise sum of each column scaled by its
ratio. -/
def weightedColSum : List (List ℚ × ℚ) → List ℚ
  | [] => []
  | [(c, r)] => vecScale r c
  | (c, r) :: rest => vecAdd (vecScale r c) (weightedColSum rest)

/-- Embedding of `Builder._build_composite_descriptor`: ratios must sum to
1.0 under `math.isclose(..., abs_tol=1e-04)`, then each named column is
fetched and the ratio-weighted element-wise sum is returned. -/
def buildCompositeDescriptor (data : List (String × List ℚ))
    (specRatios : List (String × ℚ)) : Except PyErr (List ℚ) :=
  if !(pyIsclose (sumList (specRatios.map (fun p => p.2))) 1 relTolDefault (1 / 10000)) then
    Except.error (PyErr.valueError "Ratios should sum to 1.0.")
  else do
    let cols ← exceptMapList (fun p =>
      (getAdsorbate data p.1).map (fun c => (c, p.2))) specRatios
    Except.ok (weightedColSum cols)

/-- Modelled from the spec: the external ordinary-least-squares primitive
`fit(x, y) -> (slope, intercept, score)` (spec section 6; `sklearn`'s
`LinearRegression` is out of scope).  Slope is `cov(x,y)/var(x)`,
intercept `mean y - slope * mean x`, and score the in-sample coefficient
of determination `1 - SS_res / SS_tot`. -/
def olsFit (x y : List ℚ) : ℚ × ℚ × ℚ :=
  let n : ℚ := (x.length : ℚ)
  let mx := sumList x / n
  let my := sumList y / n
  let sxx := sumList (x.map (fun a => (a - mx) * (a - mx)))
  let sxy := sumList (List.zipWith (fun a b => (a - mx) * (b - my)) x y)
  let slope := sxy / sxx
  let intercept := my - slope * mx
  let ssres := sumList (List.zipWith (fun a b => (b - (slope * a + intercept)) * (b - (slope * a + intercept))) x y)
  let sstot := sumList (y.map (fun b => (b - my) * (b - my)))
  (slope, intercept, 1 - ssres / sstot)

/-- Embedding of `Builder._builder`: build the composite descriptor from
the ratio dict, regress the target species' column on it, and map the
single fitted slope back onto each descriptor by multiplying with its
ratio; the intercept and score pass through unchanged. -/
def builderCore (data : List (String × List ℚ)) (specName : String)
    (ratios : List (String × ℚ)) : Except PyErr (List ℚ × ℚ × ℚ) := do
  let comp ← buildCompositeDescriptor data ratios
  let target ← getAdsorbate data specName
  let (slope, intercept, score) := olsFit comp target
  Except.ok (ratios.map (fun p => slope * p.2), intercept, score)

/-- One fitted species produced while building the traditional relation:
target name, per-descriptor coefficients, intercept, metric, and the
descriptor used. -/
structure TradFit where
  specName : String
  coefs : List ℚ
  intercept : ℚ
  metric : ℚ
  descriptor : String
deriving Repr, DecidableEq

/-- The per-species fit loop shared by the code and spec readings of
`build_traditional`: for each descriptor `D` and member species `S`,
run `_builder(S, ratios={D: 1.0})`. -/
def tradFits (data : List (String × List ℚ)) (groups : List (String × List String)) :
    Except PyErr (List TradFit) := do
  let nested ← exceptMapList (fun g =>
    exceptMapList (fun s => do
      let (coefs, intercept, metric) ← builderCore data s [(g.1, 1)]
      Except.ok (TradFit.mk s coefs intercept metric g.1)) g.2) groups
  Except.ok nested.flatten

/-- Embedding of `Builder.build_traditional` as written in the source: the
intercept is appended onto each species' coefficient list
(`coefs.append(intercept)`), and only the coefficients dict and metrics
dict are assembled and handed to the relation constructor
(`Relation(coefficients_dict, metrics_dict)` — no intercepts and no
ratios are produced; the name `Relation` is not even defined by
`src/scaling/relation/relation.py`). -/
def buildTraditionalCode (data : List (String × List ℚ))
    (groups : List (String × List String)) :
    Except PyErr (List (String × List ℚ) × List (String × ℚ)) := do
  let fits ← tradFits data groups
  Except.ok
    (fits.map (fun f => (f.specName, f.coefs ++ [f.intercept])),
     fits.map (fun f => (f.specName, f.metric)))

/-- Modelled from the spec: `build_traditional` stores
`coefficients[S] = [slope]`, `intercepts[S] = intercept`,
`metrics[S] = R2`, and `ratios[S] = (D : 1.0)` for each descriptor `D`
and member species `S`. -/
def buildTraditionalSpec (data : List (String × List ℚ))
    (groups : List (String × List String)) : Except PyErr EadsRelationData := do
  let fits ← tradFits data groups
  Except.ok
    ⟨fits.map (fun f => (f.specName, f.coefs)),
     fits.map (fun f => (f.specName, f.intercept)),
     fits.map (fun f => (f.specName, f.metric)),
     fits.map (fun f => (f.specName, [(f.descriptor, 1)]))⟩

/-- Embedding of the `Builder.descriptors` setter for a non-`None` list
(the str-element type checks are carried by the embedding's typing):
duplicates raise `ValueError`; a length above 2 only issues a warning.
The result pairs the stored value with the list of warning messages. -/
def setDescriptors (descriptors : Option (List String)) :
    Except PyErr (Option (List String) × List String) :=
  match descriptors with
  | none => Except.ok (none, [])
  | some l =>
    if l.length ≠ l.dedup.length then
      Except.error (PyErr.valueError "Duplicate descriptors are not allowed.")
    else
      Except.ok (some l, if l.length > 2 then ["Got more than 2 descriptors."] else [])

/-! ## AdsorbToDeltaE (src/scaling/relation/analysis.py) -/

/-- The per-species contribution assembled by `_convert_step`:
`temp_arr = copy(coefficients[name]); temp_arr.append(intercepts[name])`,
then `temp_arr[-1] += energy` only `if spec.adsorbed`, and
`temp_arr[-1] += correction` always.  Both dict lookups are by bare
species name and raise `KeyError` when absent. -/
def speciesContribCode (rel : EadsRelationData) (sp : Species) :
    Except PyErr (List ℚ) := do
  let coefs ← match List.lookup sp.name rel.coefficients with
    | some c => Except.ok c
    | none => Except.error (PyErr.keyError sp.name)
  let inter ← match List.lookup sp.name rel.intercepts with
    | some v => Except.ok v
    | none => Except.error (PyErr.keyError sp.name)
  Except.ok (coefs ++ [inter + (if sp.adsorbed then sp.energy else 0) + sp.correction])

/-- Embedding of `AdsorbToDeltaE._convert_step`: start from a zero vector
of length `dim + 1`, subtract `num * contribution` for each reactant and
add `num * contribution` for each product.  A contribution whose length
differs from `dim + 1` would be a NumPy broadcast failure, modelled as a
`ValueError`. -/
def convertStepCode (rel : EadsRelationData) (step : ReactionStep) :
    Except PyErr (List ℚ) := do
  let n := relDim rel + 1
  let acc1 ← step.reactants.foldlM (fun acc p => do
    let t ← speciesContribCode rel p.1
    if t.length ≠ n then
      Except.error (PyErr.valueError "operands could not be broadcast together")
    else
      Except.ok (vecSub acc (vecScale p.2 t))) (List.replicate n (0 : ℚ))
  step.products.foldlM (fun acc p => do
    let t ← speciesContribCode rel p.1
    if t.length ≠ n then
      Except.error (PyErr.valueError "operands could not be broadcast together")
    else
      Except.ok (vecAdd acc (vecScale p.2 t))) acc1

/-- Modelled from the spec: the claimed per-species contribution in the
step conversion.  An adsorbed species contributes its fitted coefficient
vector with `intercept + energy + correction` appended; a free
(non-adsorbed) species contributes all-zero descriptor slots with its own
`energy + correction` as the constant term. -/
def speciesContribSpec (rel : EadsRelationData) (sp : Species) :
    Except PyErr (List ℚ) :=
  if sp.adsorbed then do
    let coefs ← match List.lookup sp.name rel.coefficients with
      | some c => Except.ok c
      | none => Except.error (PyErr.keyError sp.name)
    let inter ← match List.lookup sp.name rel.intercepts with
      | some v => Except.ok v
      | none => Except.error (PyErr.keyError sp.name)
    Except.ok (coefs ++ [inter + sp.energy + sp.correction])
  else
    Except.ok (List.replicate (relDim rel) (0 : ℚ) ++ [sp.energy + sp.correction])

/-- Modelled from the spec: `_convert_step` as the claim states it —
products minus reactants over the claimed contributions. -/
def convertStepSpec (rel : EadsRelationData) (step : ReactionStep) :
    Except PyErr (List ℚ) := do
  let n := relDim rel + 1
  let acc1 ← step.reactants.foldlM (fun acc p => do
    let t ← speciesContribSpec rel p.1
    Except.ok (vecSub acc (vecScale p.2 t))) (List.replicate n (0 : ℚ))
  step.products.foldlM (fun acc p => do
    let t ← speciesContribSpec rel p.1
    Except.ok (vecAdd acc (vecScale p.2 t))) acc1

/-! ## Eads groups setter (src/scaling/data/eads.py) -/

/-- The value of a Python `list.sort()` call: the list is sorted in place
and the expression itself evaluates to `None`. -/
def pySortResult (_l : List String) : Option (List String) := none

/-- Embedding of the `Eads.groups` setter: flatten the group member lists,
then raise `RuntimeError` if `self.adsorabtes.sort() != total.sort()` —
a comparison between the return values of two in-place sorts. -/
def eadsSetGroups (adsorabtes : List String)
    (groups : Option (List (String × List String))) :
    Except PyErr (Option (List (String × List String))) :=
  match groups with
  | none => Except.ok none
  | some gs =>
    let total := (gs.map (fun g => g.2)).flatten
    if pySortResult adsorabtes ≠ pySortResult total then
      Except.error (PyErr.runtimeError "Double check group members.")
    else
      Except.ok (some gs)

/-- Modelled from the spec: the membership check the `Eads.groups` setter
announces (its docstring raises when "the adsorbates in the provided
groups do not match the adsorbates in the DataFrame"): compare the two
name collections after sorting, i.e. as multisets. -/
def eadsGroupsIntendedCheck (adsorabtes : List String)
    (groups : List (String × List String)) : Bool :=
  adsorabtes.isPerm ((groups.map (fun g => g.2)).flatten)

/-! ## Concrete fixtures (mirroring tests/relation fixtures) -/

/-- Adsorbed species `A` with reference energy `-1`. -/
def spA : Species := ⟨"A", -1, true, 0, "NA"⟩

/-- Adsorbed species `B` with reference energy `-10`. -/
def spB : Species := ⟨"B", -10, true, 0, "NA"⟩

/-- Free species `H2O` with reference energy `-8`. -/
def spH2O : Species := ⟨"H2O", -8, false, 0, "NA"⟩

/-- The test reaction step `*A + H2O -> *B`. -/
def stepAB : ReactionStep := ⟨[(spA, 1), (spH2O, 1)], [(spB, 1)]⟩

/-- A second, distinct step `*B -> *A`. -/
def stepBA : ReactionStep := ⟨[(spB, 1)], [(spA, 1)]⟩

/-- A fitted relation over descriptors with `dim = 2`:
`A` has coefficients `[1, 0]`, `B` has `[10, 0]`, both with intercept 0;
the free species `H2O` has no fitted entry. -/
def relFix : EadsRelationData :=
  ⟨[("A", [1, 0]), ("B", [10, 0])],
   [("A", 0), ("B", 0)],
   [("A", 1), ("B", 1)],
   [("A", [("A", 1)]), ("B", [("A", 1)])]⟩

/-- The same relation with a (zero) fitted entry for `H2O` as well, to
exercise the free-species branch without a lookup failure. -/
def relFixH2O : EadsRelationData :=
  ⟨[("A", [1, 0]), ("B", [10, 0]), ("H2O", [0, 0])],
   [("A", 0), ("B", 0), ("H2O", 0)],
   [("A", 1), ("B", 1), ("H2O", 1)],
   [("A", [("A", 1)]), ("B", [("A", 1)]), ("H2O", [("A", 1)])]⟩

/-- The test data table: column `*A` is `[0, 0.1, ..., 0.5]` and column
`*B` is `[0, 1, ..., 5]`, so `*B = 10 * *A` exactly. -/
def dataAB : List (String × List ℚ) :=
  [("*A", [0, 1/10, 2/10, 3/10, 4/10, 5/10]),
   ("*B", [0, 1, 2, 3, 4, 5])]

/-- A well-typed Python coefficients dict built from typed data:
string keys, list values, float elements. -/
def coefDict (kvs : List (String × List ℚ)) : PyObj :=
  PyObj.pyDict (kvs.map (fun p => (PyObj.pyStr p.1, PyObj.pyList (p.2.map PyObj.pyFloat))))

/-- An ill-typed coefficients-dict entry: the key is not a str, the value
is not a list, or some element of the value is not a float. -/
def coefItemIllTyped (kv : PyObj × PyObj) : Prop :=
  (∀ s, kv.1 ≠ PyObj.pyStr s) ∨ (∀ l, kv.2 ≠ PyObj.pyList l)
    ∨ (∃ l, kv.2 = PyObj.pyList l ∧ floatList l = none)

/-! ## Helper lemmas -/

theorem ratAbs_eq_abs (a : ℚ) : ratAbs a = |a| := by
  unfold ratAbs
  rcases lt_or_le a 0 with h | h
  · simp [h, abs_of_neg h]
  · simp [not_lt.mpr h, abs_of_nonneg h]

theorem ratMax_eq_max (a b : ℚ) : ratMax a b = max a b := by
  unfold ratMax
  rcases le_total a b with h | h
  · simp [h, max_eq_right h]
  · rcases eq_or_lt_of_le h with h' | h'
    · simp [h']
    · simp [not_le.mpr h', max_eq_left h]

theorem pyIsclose_iff (a b rt abst : ℚ) :
    pyIsclose a b rt abst = true ↔ |a - b| ≤ max (rt * max |a| |b|) abst := by
  unfold pyIsclose
  rw [ratAbs_eq_abs, ratAbs_eq_abs, ratAbs_eq_abs, ratMax_eq_max, ratMax_eq_max]
  exact decide_eq_true_iff

/-- When comparing against `1.0` with an absolute tolerance of at least
`2e-9`, the relative-tolerance branch of `math.isclose` is vacuous:
closeness is exactly `|s - 1| ≤ absTol`. -/
theorem pyIsclose_one_iff (s absTol : ℚ) (h : 2 * relTolDefault ≤ absTol) :
    pyIsclose s 1 relTolDefault absTol = true ↔ |s - 1| ≤ absTol := by
  unfold pyIsclose
  rw [ratAbs_eq_abs, ratAbs_eq_abs, ratAbs_eq_abs, ratMax_eq_max, ratMax_eq_max]
  have hrel : relTolDefault = 1 / 1000000000 := rfl
  constructor
  · intro hle
    rw [decide_eq_true_eq] at hle
    rcases le_max_iff.mp hle with hr | ha
    · have habs1 : |(1 : ℚ)| = 1 := by norm_num
      rw [habs1] at hr
      rcases le_or_lt |s| 1 with hs | hs
      · have : max |s| 1 = 1 := max_eq_right hs
        rw [this] at hr
        calc |s - 1| ≤ relTolDefault * 1 := hr
          _ ≤ absTol := by rw [hrel] at h ⊢; linarith
      · have hmax : max |s| 1 = |s| := max_eq_left (le_of_lt hs)
        rw [hmax] at hr
        have hub : |s| - 1 ≤ |s - 1| := by
          have := abs_sub_abs_le_abs_sub s 1
          simpa using this
        have hs2 : |s| ≤ 2 := by
          by_contra hc
          push_neg at hc
          have h1 : |s| - 1 ≤ relTolDefault * |s| := le_trans hub hr
          rw [hrel] at h1
          nlinarith
        calc |s - 1| ≤ relTolDefault * |s| := hr
          _ ≤ relTolDefault * 2 := by
              rw [hrel]; nlinarith [abs_nonneg s]
          _ ≤ absTol := by rw [hrel] at h ⊢; linarith
    · exact ha
  · intro hle
    rw [decide_eq_true_eq]
    exact le_max_of_le_right hle

theorem exceptBind_ok {α β : Type} (a : α) (f : α → Except PyErr β) :
    (Except.ok a : Except PyErr α) >>= f = f a := rfl

theorem exceptBind_error {α β : Type} (e : PyErr) (f : α → Except PyErr β) :
    (Except.error e : Except PyErr α) >>= f = Except.error e := rfl

/-- A list whose deduplication has at most one element has all members
equal. -/
theorem dedup_len_le_one_all_eq {α : Type} [DecidableEq α] (xs : List α)
    (h : xs.dedup.length ≤ 1) : ∀ a ∈ xs, ∀ b ∈ xs, a = b := by
  intro a ha b hb
  have ha' : a ∈ xs.dedup := List.mem_dedup.mpr ha
  have hb' : b ∈ xs.dedup := List.mem_dedup.mpr hb
  cases hd : xs.dedup with
  | nil => rw [hd] at ha'; cases ha'
  | cons x t =>
    rw [hd] at h ha' hb'
    have ht : t = [] := by
      cases t with
      | nil => rfl
      | cons y u => simp at h
    subst ht
    have hax : a = x := by simpa using ha'
    have hbx : b = x := by simpa using hb'
    rw [hax, hbx]

/-- Two distinct members force the deduplication to have length `> 1`. -/
theorem one_lt_dedup_of_ne {α : Type} [DecidableEq α] (xs : List α) {a b : α}
    (ha : a ∈ xs) (hb : b ∈ xs) (hne : a ≠ b) : 1 < xs.dedup.length := by
  by_contra h
  push_neg at h
  exact hne (dedup_len_le_one_all_eq xs h a ha b hb)

/-- Every error `checkCoefItem` can raise is a `TypeError`. -/
theorem checkCoefItem_error_typeError (kv : PyObj × PyObj) (e : PyErr)
    (h : checkCoefItem kv = Except.error e) : ∃ m, e = PyErr.typeError m := by
  unfold checkCoefItem at h
  split at h
  · split at h
    · cases h
    · simp only [Except.error.injEq] at h
      exact ⟨_, h.symm⟩
  · simp only [Except.error.injEq] at h
    exact ⟨_, h.symm⟩
  · simp only [Except.error.injEq] at h
    exact ⟨_, h.symm⟩

/-- An ill-typed entry makes `checkCoefItem` raise a `TypeError`. -/
theorem checkCoefItem_illTyped (kv : PyObj × PyObj) (h : coefItemIllTyped kv) :
    ∃ m, checkCoefItem kv = Except.error (PyErr.typeError m) := by
  rcases kv with ⟨k, v⟩
  rcases h with h | h | ⟨l, hv, hf⟩
  · cases k
    case pyStr s => exact absurd rfl (h s)
    all_goals cases v <;> exact ⟨_, rfl⟩
  · cases v
    case pyList l => exact absurd rfl (h l)
    all_goals cases k <;> exact ⟨_, rfl⟩
  · subst hv
    cases k
    case pyStr s => exact ⟨"Coefficients must be floats", by simp [checkCoefItem, hf]⟩
    all_goals exact ⟨_, rfl⟩

/-- If some list element makes `f` raise, and `f` only raises
`TypeError`s, then the whole loop raises a `TypeError`. -/
theorem exceptMapList_error_mem {α β : Type} {f : α → Except PyErr β}
    (herr : ∀ a e, f a = Except.error e → ∃ m, e = PyErr.typeError m)
    (as : List α) (hbad : ∃ a ∈ as, ∃ e, f a = Except.error e) :
    ∃ m, exceptMapList f as = Except.error (PyErr.typeError m) := by
  induction as with
  | nil => rcases hbad with ⟨a, ha, _⟩; cases ha
  | cons a as ih =>
    cases hfa : f a with
    | error e =>
      rcases herr a e hfa with ⟨m, rfl⟩
      exact ⟨m, by simp [exceptMapList, hfa, exceptBind_error]⟩
    | ok b =>
      rcases hbad with ⟨x, hx, e, hfx⟩
      rcases List.mem_cons.mp hx with rfl | hx'
      · rw [hfa] at hfx; cases hfx
      · rcases ih ⟨x, hx', e, hfx⟩ with ⟨m, hm⟩
        exact ⟨m, by simp [exceptMapList, hfa, hm, exceptBind_ok, exceptBind_error]⟩

theorem floatList_map (l : List ℚ) : floatList (l.map PyObj.pyFloat) = some l := by
  induction l with
  | nil => rfl
  | cons q qs ih => simp [floatList, ih]

/-- The type-check loop accepts a well-typed coefficients dict verbatim. -/
theorem exceptMapList_coefDict (kvs : List (String × List ℚ)) :
    exceptMapList checkCoefItem
      (kvs.map (fun p => (PyObj.pyStr p.1, PyObj.pyList (p.2.map PyObj.pyFloat))))
      = Except.ok kvs := by
  induction kvs with
  | nil => rfl
  | cons p ps ih =>
    simp [exceptMapList, checkCoefItem, floatList_map, ih, exceptBind_ok]

/-- `setCoefficients` on a well-typed dict reduces to the length check. -/
theorem setCoefficients_coefDict (kvs : List (String × List ℚ)) :
    setCoefficients (coefDict kvs) =
      if 1 < ((kvs.map (fun p => p.2.length)).dedup.length) then
        Except.error (PyErr.valueError "All coefficients must have the same length")
      else Except.ok kvs := by
  simp [setCoefficients, coefDict, exceptMapList_coefDict, exceptBind_ok]

/-- Averaging two half-scaled vectors element-wise. -/
theorem vecAdd_scale_half (ca cb : List ℚ) :
    vecAdd (vecScale (1/2) ca) (vecScale (1/2) cb)
      = List.zipWith (fun x y => (x + y) / 2) ca cb := by
  induction ca generalizing cb with
  | nil => cases cb <;> simp [vecAdd, vecScale]
  | cons x xs ih =>
    cases cb with
    | nil => simp [vecAdd, vecScale]
    | cons y ys =>
      simp only [vecAdd, vecScale, List.map_cons, List.zipWith_cons_cons] at ih ⊢
      rw [ih]
      congr 1
      ring

/-! ## Claim theorems -/

/-- C6 counterexample: two `Species` whose four fields
`(name, adsorbed, energy, state)` all match are nevertheless unequal under
`Species.__eq__` when their corrections differ, so equality does not hold
"exactly when the four fields all match". -/
theorem c6_counterexample :
    (Species.mk "CO" (-1) true 0 "NA").name = (Species.mk "CO" (-1) true 1 "NA").name
    ∧ (Species.mk "CO" (-1) true 0 "NA").adsorbed = (Species.mk "CO" (-1) true 1 "NA").adsorbed
    ∧ (Species.mk "CO" (-1) true 0 "NA").energy = (Species.mk "CO" (-1) true 1 "NA").energy
    ∧ (Species.mk "CO" (-1) true 0 "NA").state = (Species.mk "CO" (-1) true 1 "NA").state
    ∧ speciesEq (Species.mk "CO" (-1) true 0 "NA") (Species.mk "CO" (-1) true 1 "NA") = false := by
  refine ⟨rfl, rfl, rfl, rfl, ?_⟩
  norm_num [speciesEq, pyIsclose, ratAbs, ratMax, relTolDefault]

/-- C6 (amended): `Species.__eq__` holds exactly when name, adsorbed flag
and state match exactly and both energy and correction match under
`math.isclose` with absolute tolerance `1e-4` (and default relative
tolerance `1e-9`); `Species.__hash__` is computed from the exact values of
the four fields `(name, adsorbed, energy, state)`. -/
theorem c6_species_eq_hash_amended (s o : Species) :
    (speciesEq s o = true ↔ (s.name = o.name ∧ s.adsorbed = o.adsorbed
      ∧ |s.energy - o.energy| ≤ max (relTolDefault * max |s.energy| |o.energy|) (1 / 10000)
      ∧ |s.correction - o.correction| ≤
          max (relTolDefault * max |s.correction| |o.correction|) (1 / 10000)
      ∧ s.state = o.state))
    ∧ speciesHash s = (s.name, s.adsorbed, s.energy, s.state) := by
  constructor
  · simp only [speciesEq, Bool.and_eq_true, beq_iff_eq, pyIsclose_iff]
    tauto
  · rfl

/-- C9: `Species.__eq__` compares energy (and correction) only up to the
`isclose` tolerance while `Species.__hash__` uses the exact energy and
ignores correction, so two species can compare equal yet hash differently
— and two species differing only in correction hash identically while
comparing unequal. -/
theorem c9_eq_does_not_imply_hash_eq :
    speciesEq (Species.mk "CO" (-1) true 0 "NA")
        (Species.mk "CO" (-1 - 1/20000) true 0 "NA") = true
    ∧ speciesHash (Species.mk "CO" (-1) true 0 "NA")
        ≠ speciesHash (Species.mk "CO" (-1 - 1/20000) true 0 "NA")
    ∧ speciesHash (Species.mk "CO" (-1) true 1 "NA")
        = speciesHash (Species.mk "CO" (-1) true 0 "NA")
    ∧ speciesEq (Species.mk "CO" (-1) true 1 "NA")
        (Species.mk "CO" (-1) true 0 "NA") = false := by
  refine ⟨?_, ?_, rfl, ?_⟩
  · norm_num [speciesEq, pyIsclose, ratAbs, ratMax, relTolDefault]
  · norm_num [speciesHash]
  · norm_num [speciesEq, pyIsclose, ratAbs, ratMax, relTolDefault]

/-- C10: the `Eads.groups` setter never raises its group-membership
`RuntimeError` for any non-`None` groups mapping: it compares the return
values of two in-place `list.sort()` calls, which are both `None`, so any
group membership is accepted — including one that the setter's announced
membership check would reject. -/
theorem c10_groups_check_unreachable :
    (∀ (adsorabtes : List String) (gs : List (String × List String)),
      eadsSetGroups adsorabtes (some gs) = Except.ok (some gs))
    ∧ eadsSetGroups ["*CO", "*OH"] (some [("carbon", ["bogus"])])
        = Except.ok (some [("carbon", ["bogus"])])
    ∧ eadsGroupsIntendedCheck ["*CO", "*OH"] [("carbon", ["bogus"])] = false := by
  refine ⟨?_, ?_, ?_⟩
  · intro adsorabtes gs
    simp [eadsSetGroups, pySortResult]
  · simp [eadsSetGroups, pySortResult]
  · decide

/-- C7 counterexample: a descriptor list of length 1 (a count different
from 2) is accepted by the `Builder.descriptors` setter without any
error, refuting the claim that a descriptor count different from 2 fails. -/
theorem c7_counterexample :
    setDescriptors (some ["*A"]) = Except.ok (some ["*A"], []) := by
  simp [setDescriptors]

/-- C7 (amended): a descriptor list containing duplicate names fails with
a validation error at the point of the call, but a descriptor count
different from 2 does not fail at the `Builder.descriptors` setter: any
duplicate-free list is accepted, with only a warning when more than two
descriptors are supplied. -/
theorem c7_descriptors_setter_amended :
    (∀ l : List String, l.dedup.length ≠ l.length →
      setDescriptors (some l)
        = Except.error (PyErr.valueError "Duplicate descriptors are not allowed."))
    ∧ (∀ l : List String, l.dedup.length = l.length →
      setDescriptors (some l)
        = Except.ok (some l, if l.length > 2 then ["Got more than 2 descriptors."] else [])) := by
  constructor
  · intro l h
    have h' : l.length ≠ l.dedup.length := fun e => h e.symm
    simp [setDescriptors, h']
  · intro l h
    simp [setDescriptors, h.symm]

/-- C7 amended witness: the duplicate list `["*A", "*A"]` is rejected and
the duplicate-free three-element list `["*A", "*B", "*C"]` is accepted
with a warning. -/
theorem c7_descriptors_setter_amended_witness :
    setDescriptors (some ["*A", "*A"])
      = Except.error (PyErr.valueError "Duplicate descriptors are not allowed.")
    ∧ setDescriptors (some ["*A", "*B", "*C"])
      = Except.ok (some ["*A", "*B", "*C"], ["Got more than 2 descriptors."]) := by
  constructor
  · exact c7_descriptors_setter_amended.1 ["*A", "*A"] (by decide)
  · have h := c7_descriptors_setter_amended.2 ["*A", "*B", "*C"] (by decide)
    simpa using h

/-- C2: on the dataset where column `*B` equals `10 * *A` exactly, with
groups `(*A : [*B])`, the code's `build_traditional` produces the
coefficient entry `[10, 0]` for `*B` — the OLS slope with the intercept
appended into the coefficient list — and assembles only a coefficients
dict and a metrics dict; the claimed behaviour (also asserted by the
repository's own test) instead stores `coefficients[*B] = [10]`,
`intercepts[*B] = 0`, `metrics[*B] = 1` and `ratios[*B] = (*A : 1.0)`. -/
theorem c2_build_traditional_divergence :
    buildTraditionalCode dataAB [("*A", ["*B"])]
      = Except.ok ([("*B", [10, 0])], [("*B", 1)])
    ∧ buildTraditionalSpec dataAB [("*A", ["*B"])]
      = Except.ok ⟨[("*B", [10])], [("*B", 0)], [("*B", 1)], [("*B", [("*A", 1)])]⟩ := by
  constructor <;> with_unfolding_all rfl

/-- C3: the composite-descriptor helper fails with a validation error
when the ratios do not sum to 1.0 within absolute tolerance `1e-4`, and
otherwise returns the element-wise ratio-weighted sum of the named
columns: with a single ratio of 1.0 it returns the column itself exactly,
and with two ratios of 0.5 it returns the element-wise average. -/
theorem c3_composite_descriptor_linearity :
    (∀ (data : List (String × List ℚ)) (specRatios : List (String × ℚ)),
      ¬ |sumList (specRatios.map (fun p => p.2)) - 1| ≤ 1 / 10000 →
      buildCompositeDescriptor data specRatios
        = Except.error (PyErr.valueError "Ratios should sum to 1.0."))
    ∧ (∀ (data : List (String × List ℚ)) (a : String) (col : List ℚ),
      List.lookup a data = some col →
      buildCompositeDescriptor data [(a, 1)] = Except.ok col)
    ∧ (∀ (data : List (String × List ℚ)) (a b : String) (ca cb : List ℚ),
      List.lookup a data = some ca → List.lookup b data = some cb →
      buildCompositeDescriptor data [(a, 1/2), (b, 1/2)]
        = Except.ok (List.zipWith (fun x y => (x + y) / 2) ca cb)) := by
  refine ⟨?_, ?_, ?_⟩
  · intro data specRatios h
    have hc : pyIsclose (sumList (specRatios.map (fun p => p.2))) 1 relTolDefault (1 / 10000)
        = false := by
      cases hb : pyIsclose (sumList (specRatios.map (fun p => p.2))) 1 relTolDefault (1 / 10000) with
      | false => rfl
      | true =>
        exact absurd ((pyIsclose_one_iff _ _ (by norm_num [relTolDefault])).mp hb) h
    unfold buildCompositeDescriptor
    rw [hc]
    simp
  · intro data a col hl
    have hc : pyIsclose (sumList ([(a, (1:ℚ))].map (fun p => p.2))) 1 relTolDefault (1 / 10000)
        = true := by
      norm_num [sumList, pyIsclose, ratAbs, ratMax, relTolDefault]
    unfold buildCompositeDescriptor
    rw [hc]
    simp [exceptMapList, getAdsorbate, hl, exceptBind_ok, Except.map,
      weightedColSum, vecScale, one_mul, List.map_id]
  · intro data a b ca cb hla hlb
    have hc : pyIsclose (sumList ([(a, (1:ℚ)/2), (b, (1:ℚ)/2)].map (fun p => p.2))) 1
        relTolDefault (1 / 10000) = true := by
      norm_num [sumList, pyIsclose, ratAbs, ratMax, relTolDefault]
    unfold buildCompositeDescriptor
    rw [hc]
    simp only [Bool.not_true, Bool.false_eq_true, if_false, exceptMapList,
      getAdsorbate, hla, hlb, exceptBind_ok, Except.map, weightedColSum]
    rw [vecAdd_scale_half]

/-- C3 witness: concrete instances on the test table — ratios summing to
0.5 are rejected; ratio `(*A : 1.0)` returns column `*A` exactly; ratios
`(*A : 0.5, *B : 0.5)` return the element-wise average. -/
theorem c3_composite_descriptor_linearity_witness :
    buildCompositeDescriptor dataAB [("*A", 1/2)]
      = Except.error (PyErr.valueError "Ratios should sum to 1.0.")
    ∧ buildCompositeDescriptor dataAB [("*A", 1)]
      = Except.ok [0, 1/10, 2/10, 3/10, 4/10, 5/10]
    ∧ buildCompositeDescriptor dataAB [("*A", 1/2), ("*B", 1/2)]
      = Except.ok (List.zipWith (fun x y => (x + y) / 2)
          [0, 1/10, 2/10, 3/10, 4/10, 5/10] [0, 1, 2, 3, 4, 5]) := by
  refine ⟨?_, ?_, ?_⟩
  · exact c3_composite_descriptor_linearity.1 dataAB [("*A", 1/2)]
      (by norm_num [sumList, abs_le])
  · exact c3_composite_descriptor_linearity.2.1 dataAB "*A" _ rfl
  · exact c3_composite_descriptor_linearity.2.2 dataAB "*A" "*B" _ _ rfl rfl

/-- C4: a successful `ratios` assignment stores the input unchanged and
guarantees every per-species sub-mapping sums to 1.0 within absolute
tolerance 0.01 with all sub-mappings of equal cardinality; an input
violating either condition is rejected with a validation error. -/
theorem c4_ratios_invariant :
    (∀ (ratios out : List (String × List (String × ℚ))),
      setRatios ratios = Except.ok out →
      out = ratios
      ∧ (∀ p ∈ ratios, |ratioSum p.2 - 1| ≤ 1 / 100)
      ∧ (∀ p ∈ ratios, ∀ q ∈ ratios, p.2.length = q.2.length))
    ∧ (∀ ratios : List (String × List (String × ℚ)),
      ((∃ p ∈ ratios, ¬ |ratioSum p.2 - 1| ≤ 1 / 100)
        ∨ (∃ p ∈ ratios, ∃ q ∈ ratios, p.2.length ≠ q.2.length)) →
      ∃ m, setRatios ratios = Except.error (PyErr.valueError m)) := by
  constructor
  · intro ratios out h
    unfold setRatios at h
    split at h
    · cases h
    case h_2 hfind =>
      split at h
      · cases h
      case isFalse hlen =>
        simp only [Except.ok.injEq] at h
        have hall := List.find?_eq_none.mp hfind
        refine ⟨h.symm, ?_, ?_⟩
        · intro p hp
          have hcl := hall p hp
          simp only [Bool.not_eq_true', Bool.not_eq_false] at hcl
          exact (pyIsclose_one_iff _ _ (by norm_num [relTolDefault])).mp hcl
        · intro p hp q hq
          have hle : ((ratios.map (fun p => p.2.length)).dedup.length ≤ 1) :=
            Nat.not_lt.mp hlen
          exact dedup_len_le_one_all_eq _ hle _ (List.mem_map_of_mem _ hp) _
            (List.mem_map_of_mem _ hq)
  · intro ratios h
    cases hfind : ratios.find? (fun p => !(pyIsclose (ratioSum p.2) 1 relTolDefault (1 / 100))) with
    | some p =>
      refine ⟨"Ratios for each species should sum to one.", ?_⟩
      unfold setRatios
      rw [hfind]
    | none =>
      have hall := List.find?_eq_none.mp hfind
      rcases h with ⟨p, hp, hbad⟩ | ⟨p, hp, q, hq, hne⟩
      · have hcl := hall p hp
        simp only [Bool.not_eq_true', Bool.not_eq_false] at hcl
        exact absurd ((pyIsclose_one_iff _ _ (by norm_num [relTolDefault])).mp hcl) hbad
      · have hlt : 1 < ((ratios.map (fun p => p.2.length)).dedup.length) :=
          one_lt_dedup_of_ne _ (List.mem_map_of_mem _ hp) (List.mem_map_of_mem _ hq) hne
        refine ⟨"Ratio dict must have the same length.", ?_⟩
        unfold setRatios
        rw [hfind]
        simp [hlt]

/-- C4 witness: the singleton ratios dict `(b : (a : 1.0))` is accepted
and satisfies the invariant; a sub-mapping summing to 0.9 is rejected, as
is a pair of sub-mappings of different cardinality. -/
theorem c4_ratios_invariant_witness :
    ([("b", [("a", (1:ℚ))])] = [("b", [("a", (1:ℚ))])]
      ∧ (∀ p ∈ [("b", [("a", (1:ℚ))])], |ratioSum p.2 - 1| ≤ 1 / 100)
      ∧ (∀ p ∈ [("b", [("a", (1:ℚ))])], ∀ q ∈ [("b", [("a", (1:ℚ))])],
          p.2.length = q.2.length))
    ∧ (∃ m, setRatios [("b", [("a", (9:ℚ)/10)])]
        = Except.error (PyErr.valueError m))
    ∧ (∃ m, setRatios [("b", [("a", (1:ℚ))]), ("c", [("d", (9:ℚ)/10), ("e", 1/10)])]
        = Except.error (PyErr.valueError m)) := by
  refine ⟨?_, ?_, ?_⟩
  · exact c4_ratios_invariant.1 [("b", [("a", (1:ℚ))])] [("b", [("a", (1:ℚ))])]
      (by with_unfolding_all rfl)
  · exact c4_ratios_invariant.2 [("b", [("a", (9:ℚ)/10)])]
      (Or.inl ⟨("b", [("a", (9:ℚ)/10)]), by simp, by norm_num [ratioSum, sumList, abs_le]⟩)
  · exact c4_ratios_invariant.2 _
      (Or.inr ⟨("b", [("a", (1:ℚ))]), by simp, ("c", [("d", (9:ℚ)/10), ("e", 1/10)]),
        by simp, by norm_num⟩)

/-- C5: constructing an `EadsRelation` with the literal coefficient dict
`("a" : [0.1, 0.2], "b" : [0.1, 0.2, 0.3])` fails with the
length-mismatch `ValueError` regardless of the other arguments; a
non-dict coefficients input, a non-string key, a non-list value or a
non-float element each fail with a `TypeError`; and any well-typed dict
whose lists differ in length fails with the length-mismatch error. -/
theorem c5_coefficients_validation :
    (∀ (intercepts metrics : List (String × ℚ))
        (ratios : List (String × List (String × ℚ))),
      mkEadsRelation (coefDict [("a", [1/10, 2/10]), ("b", [1/10, 2/10, 3/10])])
          intercepts metrics ratios
        = Except.error (PyErr.valueError "All coefficients must have the same length"))
    ∧ (∀ x : PyObj, x.isDict = false →
      ∃ m, setCoefficients x = Except.error (PyErr.typeError m))
    ∧ (∀ kvs : List (PyObj × PyObj), (∃ kv ∈ kvs, coefItemIllTyped kv) →
      ∃ m, setCoefficients (PyObj.pyDict kvs) = Except.error (PyErr.typeError m))
    ∧ (∀ kvs : List (String × List ℚ),
      (∃ p ∈ kvs, ∃ q ∈ kvs, p.2.length ≠ q.2.length) →
      setCoefficients (coefDict kvs)
        = Except.error (PyErr.valueError "All coefficients must have the same length")) := by
  refine ⟨?_, ?_, ?_, ?_⟩
  · intro intercepts metrics ratios
    with_unfolding_all rfl
  · intro x h
    cases x with
    | pyDict kvs => cases h
    | pyStr s => exact ⟨_, rfl⟩
    | pyFloat q => exact ⟨_, rfl⟩
    | pyInt i => exact ⟨_, rfl⟩
    | pyBool b => exact ⟨_, rfl⟩
    | pyList l => exact ⟨_, rfl⟩
  · intro kvs hbad
    rcases hbad with ⟨kv, hkv, hill⟩
    obtain ⟨m, hcheck⟩ := checkCoefItem_illTyped kv hill
    obtain ⟨m2, hmap⟩ :=
      exceptMapList_error_mem checkCoefItem_error_typeError kvs
        ⟨kv, hkv, PyErr.typeError m, hcheck⟩
    exact ⟨m2, by simp [setCoefficients, hmap, exceptBind_error]⟩
  · intro kvs hbad
    rcases hbad with ⟨p, hp, q, hq, hne⟩
    have hlt : 1 < ((kvs.map (fun p => p.2.length)).dedup.length) :=
      one_lt_dedup_of_ne _ (List.mem_map_of_mem _ hp) (List.mem_map_of_mem _ hq) hne
    rw [setCoefficients_coefDict]
    simp [hlt]

/-- C5 witness: the literal length-mismatch call fails; a list input, an
int key and mismatched well-typed lengths each fail as stated. -/
theorem c5_coefficients_validation_witness :
    mkEadsRelation (coefDict [("a", [1/10, 2/10]), ("b", [1/10, 2/10, 3/10])]) [] [] []
      = Except.error (PyErr.valueError "All coefficients must have the same length")
    ∧ (∃ m, setCoefficients (PyObj.pyList [])
        = Except.error (PyErr.typeError m))
    ∧ (∃ m, setCoefficients (PyObj.pyDict [(PyObj.pyInt 1, PyObj.pyList [PyObj.pyFloat 1])])
        = Except.error (PyErr.typeError m))
    ∧ setCoefficients (coefDict [("a", [1/10, 2/10]), ("b", [1/10, 2/10, 3/10])])
      = Except.error (PyErr.valueError "All coefficients must have the same length") := by
  refine ⟨?_, ?_, ?_, ?_⟩
  · exact c5_coefficients_validation.1 [] [] []
  · exact c5_coefficients_validation.2.1 (PyObj.pyList []) rfl
  · exact c5_coefficients_validation.2.2.1 [(PyObj.pyInt 1, PyObj.pyList [PyObj.pyFloat 1])]
      ⟨(PyObj.pyInt 1, PyObj.pyList [PyObj.pyFloat 1]), by simp,
        Or.inl (fun s h => PyObj.noConfusion h)⟩
  · exact c5_coefficients_validation.2.2.2 [("a", [1/10, 2/10]), ("b", [1/10, 2/10, 3/10])]
      ⟨("a", [1/10, 2/10]), by simp, ("b", [1/10, 2/10, 3/10]), by simp, by norm_num⟩

/-- C1: on the single-step reaction `*A + H2O -> *B` the claimed
conversion (products minus reactants, adsorbed species contributing
coefficients plus `intercept + energy + correction`, free species
contributing zero descriptor slots with their own energy in the constant
term) yields `[9, 0, -1]`; the code's `_convert_step` instead looks the
free species up in the fitted relation — failing with a `KeyError` when
`H2O` has no fitted entry, and, when it does, using that entry while
never adding the free species' energy (yielding `[9, 0, -9]`). -/
theorem c1_convert_step_free_species_divergence :
    convertStepCode relFix stepAB = Except.error (PyErr.keyError "H2O")
    ∧ convertStepSpec relFix stepAB = Except.ok [9, 0, -1]
    ∧ convertStepCode relFixH2O stepAB = Except.ok [9, 0, -9]
    ∧ convertStepSpec relFixH2O stepAB = Except.ok [9, 0, -1] := by
  refine ⟨?_, ?_, ?_, ?_⟩ <;> with_unfolding_all rfl

/-- C8: `Reaction.__setitem__` replaces a single step without re-running
the duplicate validation: a valid two-step reaction can be turned, by item
assignment, into one holding two equal `ReactionStep`s — a list that the
`reaction_steps` setter itself would reject. -/
theorem c8_setitem_bypasses_duplicate_validation :
    mkReaction [stepAB, stepBA] = Except.ok ⟨[stepAB, stepBA]⟩
    ∧ reactionSetItem ⟨[stepAB, stepBA]⟩ 0 stepBA = ⟨[stepBA, stepBA]⟩
    ∧ stepEq stepBA stepBA = true
    ∧ mkReaction [stepBA, stepBA]
        = Except.error (PyErr.valueError "Duplicate ReactionStep found.") := by
  refine ⟨?_, rfl, ?_, ?_⟩
  · norm_num [mkReaction, pySetSize, pySetInsert, stepHashEq, stepEq, pyDictEqSF,
      pyDictLookup, speciesEq, speciesHash, pyIsclose, ratAbs, ratMax, relTolDefault,
      stepAB, stepBA, spA, spB, spH2O, List.isPerm, List.find?, List.foldl]
  · norm_num [stepEq, pyDictEqSF, pyDictLookup, speciesEq, pyIsclose, ratAbs, ratMax,
      relTolDefault, stepBA, spA, spB, List.find?]
  · norm_num [mkReaction, pySetSize, pySetInsert, stepHashEq, stepEq, pyDictEqSF,
      pyDictLookup, speciesEq, speciesHash, pyIsclose, ratAbs, ratMax, relTolDefault,
      stepBA, spA, spB, List.isPerm, List.find?, List.foldl]

end CatScaling
